import Mathlib

/-!
Shallow embedding of two parts of the UCX transport core:
 * the shared-memory FIFO layout arithmetic and active-message receive path
   of `src/uct/sm/mm/mm_iface.h` (`uct_mm_set_fifo_ptrs`,
   `UCT_MM_GET_FIFO_SIZE`, `uct_mm_iface_invoke_am`);
 * the sockaddr listener of `src/ucp/core/ucp_listener.c`
   (`ucp_worker_listen`, `ucp_listener_conn_request_callback`,
   `ucp_listener_conn_request_progress`).

External collaborators (allocators, the memory-domain accessibility query,
interface initialisation, active-message dispatch) are modelled as oracle
parameters: each carries the answer the external call would give at the
modelled invocation.  Pointers are modelled as `Option Nat` (`none` = NULL)
and addresses as `Nat`; a `ucs_fatal` abort is modelled as `Except.error`
carrying the diagnostic string.
-/

/-- `ucs_status_t` values that this core produces or branches on.
`err c` stands for any other (error) status value, e.g. one returned by
`ucp_worker_iface_init` or by an active-message handler. -/
inductive UcsStatus where
  | ok
  | invalidParam
  | invalidAddr
  | noMemory
  | err (code : Nat)
deriving DecidableEq, Repr

/-! ## FIFO layout arithmetic (`mm_iface.h`) -/

/-- Modelled from the spec: `UCS_SYS_CACHE_LINE_SIZE` is the platform cache
line size, a fixed power of two (64 bytes on the covered platforms); the
constant lives in ucs system headers outside the covered sources. -/
def UCS_SYS_CACHE_LINE_SIZE : Nat := 64

/-- `sizeof(uct_mm_fifo_ctl_t)`: the packed struct holds two `uint64_t`
counters (`head`, `tail`), hence 16 bytes. -/
def sizeof_uct_mm_fifo_ctl : Nat := 16

/-- Modelled from the spec: `ucs_align_up(n, a)` rounds `n` up to the next
multiple of `a` ("rounded up to a cache line"); the macro lives in ucs
headers outside the covered sources.  Stated on unbounded `Nat`
(no `uintptr_t` overflow, which cannot occur for in-range regions). -/
def ucs_align_up (n alignment : Nat) : Nat :=
  (n + alignment - 1) / alignment * alignment

/-- Modelled from the spec: `ucs_align_up_pow2(n, a)` rounds `n` up to the
next multiple of the power of two `a` ("the CTL pointer is
`align_up(R, cache_line)`"); same value as `ucs_align_up` for power-of-two
alignments. -/
def ucs_align_up_pow2 (n alignment : Nat) : Nat :=
  (n + alignment - 1) / alignment * alignment

/-- `UCT_MM_FIFO_CTL_SIZE_ALIGNED`:
`ucs_align_up(sizeof(uct_mm_fifo_ctl_t), UCS_SYS_CACHE_LINE_SIZE)`. -/
def UCT_MM_FIFO_CTL_SIZE_ALIGNED : Nat :=
  ucs_align_up sizeof_uct_mm_fifo_ctl UCS_SYS_CACHE_LINE_SIZE

/-- `UCT_MM_GET_FIFO_SIZE(iface)`, as a function of the two interface fields
it reads (`iface->config.fifo_size` and `iface->elem_size`):
`UCS_SYS_CACHE_LINE_SIZE - 1 + UCT_MM_FIFO_CTL_SIZE_ALIGNED
 + fifo_size * elem_size`. -/
def UCT_MM_GET_FIFO_SIZE (fifo_size elem_size : Nat) : Nat :=
  UCS_SYS_CACHE_LINE_SIZE - 1 + UCT_MM_FIFO_CTL_SIZE_ALIGNED +
    fifo_size * elem_size

/-- `uct_mm_set_fifo_ptrs(mem_region, &fifo_ctl, &fifo_elems)`: returns the
pair (value stored through `fifo_ctl`, value stored through `fifo_elems`).
Addresses are `Nat`. -/
def uct_mm_set_fifo_ptrs (mem_region : Nat) : Nat × Nat :=
  let fifo_ctl := ucs_align_up_pow2 mem_region UCS_SYS_CACHE_LINE_SIZE
  (fifo_ctl, fifo_ctl + UCT_MM_FIFO_CTL_SIZE_ALIGNED)

/-! ## Active-message receive path (`uct_mm_iface_invoke_am`) -/

/-- The fields of `uct_mm_iface_t` that `uct_mm_iface_invoke_am` touches:
the cached receive descriptor (`last_recv_desc`, a pointer, `none` = NULL)
and the pool identity (`recv_desc_mp`, opaque). -/
structure MmIface where
  last_recv_desc : Option Nat
  recv_desc_mp : Nat
deriving DecidableEq, Repr

/-- Observable outcome of a non-fatal `uct_mm_iface_invoke_am` call: the
updated interface and whether `uct_recv_desc_iface(desc)` was written
(the bookkeeping store on the held descriptor's headroom). -/
structure InvokeAmResult where
  iface : MmIface
  descIfaceSet : Bool
deriving DecidableEq, Repr

/-- `uct_mm_iface_invoke_am(iface, am_id, data, length, mm_desc)`.
`dispatchStatus` is the oracle answer of the external
`uct_iface_invoke_am(&iface->super, am_id, data, length, desc)` call;
`mpoolGet` is the oracle answer of `ucs_mpool_get(iface->recv_desc_mp)`
(`none` = NULL).  `ucs_fatal` is modelled as `Except.error` with the
source's diagnostic string. -/
def uct_mm_iface_invoke_am (iface : MmIface) (dispatchStatus : UcsStatus)
    (mpoolGet : Option Nat) : Except String InvokeAmResult :=
  if dispatchStatus = UcsStatus.ok then
    Except.ok { iface := iface, descIfaceSet := false }
  else
    match mpoolGet with
    | none => Except.error "Failed to get a new receive descriptor for MM"
    | some d =>
        Except.ok { iface := { iface with last_recv_desc := some d }
                  , descIfaceSet := true }

/-! ## Sockaddr listener (`ucp_listener.c`) -/

/-- The listener record `ucp_listener_t` as `ucp_worker_listen` fills it:
the user callback (`cb`, `none` = NULL function pointer), the user argument
(`arg`; `none` models the field left uninitialised when the callback bit is
absent — the source then writes only `listener->cb = NULL`), and the
transport index whose interface `listener->wiface` was initialised on. -/
structure ListenerRec where
  cb : Option Nat
  arg : Option Nat
  tl_id : Nat
deriving DecidableEq, Repr

/-- The fields of `ucp_worker_listener_params_t` that `ucp_worker_listen`
reads: the two field-mask bits, the sockaddr address pointer
(`params->sockaddr.addr`, `none` = NULL), and the accept handler
(`params->ep_accept_handler.cb` / `.arg`). -/
structure ListenerParams where
  fieldSockAddr : Bool
  fieldCallback : Bool
  sockaddrAddr : Option Nat
  cb : Option Nat
  arg : Nat
deriving Repr

/-- The per-memory-domain data `ucp_worker_listen` consults
(`ucp_tl_md_t`): whether `attr.cap.flags` has `UCT_MD_FLAG_SOCKADDR`, and
the oracle answer of the external
`uct_md_is_sockaddr_accessible(md, sockaddr, UCT_SOCKADDR_ACC_LOCAL)`
query as a function of the queried sockaddr address. -/
structure TlMd where
  capSockaddr : Bool
  isSockaddrAccessible : Option Nat → Bool

/-- A transport resource descriptor (`ucp_tl_resource_desc_t`), reduced to
the one field the listener reads: the index of its memory domain. -/
structure TlResource where
  md_index : Nat
deriving DecidableEq, Repr

/-- Default `TlMd` used for an out-of-range `md_index` lookup (never hit by
well-formed contexts: every resource's `md_index` indexes `tl_mds`). -/
def defaultTlMd : TlMd :=
  { capSockaddr := false, isSockaddrAccessible := fun _ => false }

/-- The context fields `ucp_worker_listen` reads: the resource array
`context->tl_rscs` (with `num_tls = tl_rscs.length`) and the memory-domain
array `context->tl_mds`. -/
structure UcpContext where
  tl_rscs : List TlResource
  tl_mds : List TlMd

/-- Oracle answers for the external calls `ucp_worker_listen` makes:
whether `ucs_malloc(sizeof(*listener))` succeeds, and the status
`ucp_worker_iface_init(worker, tl_id, ...)` returns for each `tl_id`. -/
structure ListenEnv where
  mallocListener : Bool
  ifaceInitStatus : Nat → UcsStatus

/-- Observable outcome of one `ucp_worker_listen` call: the returned
status; the value written through `listener_p` (`none` = not written);
how many listener records were allocated and how many freed; and whether
the `UCS_ASYNC_UNBLOCK` / `UCP_THREAD_CS_EXIT_CONDITIONAL` pair at label
`out` ran before the return. -/
structure ListenResult where
  status : UcsStatus
  listener_p : Option ListenerRec
  allocated : Nat
  freed : Nat
  exitedCS : Bool
deriving DecidableEq, Repr

/-- Whether the resource `r` passes the loop's filter at lines 93-97 of
`ucp_listener.c`: its memory domain advertises `UCT_MD_FLAG_SOCKADDR` and
reports the given sockaddr locally accessible. -/
def rscAccessible (mds : List TlMd) (saddr : Option Nat) (r : TlResource) :
    Bool :=
  let md := mds.getD r.md_index defaultTlMd
  md.capSockaddr && md.isSockaddrAccessible saddr

/-- The `for (tl_id = 0; tl_id < context->num_tls; ++tl_id)` loop of
`ucp_worker_listen`, lines 89-136: `rscs` is the remaining suffix of
`context->tl_rscs` and `tl_id` the index of its head.  Each exit mirrors a
`goto` of the source: `goto out` with no allocation (malloc failure),
`goto err_free` after allocation (null callback with the bit set, or
`ucp_worker_iface_init` failure), success, or loop exhaustion
(`UCS_ERR_INVALID_ADDR`, falling through `err_free` with `listener = NULL`,
a no-op free). -/
def ucpListenLoop (env : ListenEnv) (params : ListenerParams)
    (mds : List TlMd) : Nat → List TlResource → ListenResult
  | _, [] =>
      { status := UcsStatus.invalidAddr, listener_p := none,
        allocated := 0, freed := 0, exitedCS := true }
  | tl_id, r :: rest =>
      if rscAccessible mds params.sockaddrAddr r then
        if env.mallocListener then
          if params.fieldCallback = true ∧ params.cb = none then
            { status := UcsStatus.invalidParam, listener_p := none,
              allocated := 1, freed := 1, exitedCS := true }
          else
            let cbv := if params.fieldCallback then params.cb else none
            let argv := if params.fieldCallback then some params.arg else none
            if env.ifaceInitStatus tl_id = UcsStatus.ok then
              { status := UcsStatus.ok,
                listener_p := some { cb := cbv, arg := argv, tl_id := tl_id },
                allocated := 1, freed := 0, exitedCS := true }
            else
              { status := env.ifaceInitStatus tl_id, listener_p := none,
                allocated := 1, freed := 1, exitedCS := true }
        else
          { status := UcsStatus.noMemory, listener_p := none,
            allocated := 0, freed := 0, exitedCS := true }
      else
        ucpListenLoop env params mds (tl_id + 1) rest

/-- `ucp_worker_listen(worker, params, listener_p)`.  The two parameter
checks before the loop (missing `UCP_WORKER_LISTENER_PARAM_FIELD_SOCK_ADDR`
bit; `UCP_CHECK_PARAM_NON_NULL(params->sockaddr.addr, ...)`) both
`goto out` with `UCS_ERR_INVALID_PARAM`; otherwise the resource loop runs
from `tl_id = 0`. -/
def ucp_worker_listen (ctx : UcpContext) (env : ListenEnv)
    (params : ListenerParams) : ListenResult :=
  if !params.fieldSockAddr then
    { status := UcsStatus.invalidParam, listener_p := none,
      allocated := 0, freed := 0, exitedCS := true }
  else if params.sockaddrAddr = none then
    { status := UcsStatus.invalidParam, listener_p := none,
      allocated := 0, freed := 0, exitedCS := true }
  else
    ucpListenLoop env params ctx.tl_mds 0 ctx.tl_rscs

/-! ## Deferred-dispatch bridge (`ucp_listener_conn_request_callback`,
`ucp_listener_conn_request_progress`) -/

/-- The accept record `ucp_listener_accept_t`: back-reference to the
listener and the nascent endpoint handle (`none` = NULL). -/
structure AcceptRec where
  listener : ListenerRec
  ep : Option Nat
deriving DecidableEq, Repr

/-- Observable outcome of `ucp_listener_conn_request_callback`: the
returned status, the progress item registered via
`uct_worker_progress_register_safe` (`none` = no registration) together
with whether `UCS_CALLBACKQ_FLAG_ONESHOT` was passed, and whether an
accept record was allocated. -/
structure ConnReqResult where
  status : UcsStatus
  registered : Option (AcceptRec × Bool)
  allocatedAccept : Bool
deriving DecidableEq, Repr

/-- `ucp_listener_conn_request_callback(arg, conn_priv_data, length)` with
`arg = listener`.  `mallocAccept` is the oracle answer of
`ucs_malloc(sizeof(*accept))` (`false` = NULL).  The connection private
data and length are unused by the covered body. -/
def ucp_listener_conn_request_callback (listener : ListenerRec)
    (mallocAccept : Bool) : ConnReqResult :=
  if listener.cb ≠ none then
    if !mallocAccept then
      { status := UcsStatus.noMemory, registered := none,
        allocatedAccept := false }
    else
      { status := UcsStatus.ok,
        registered := some ({ listener := listener, ep := none }, true),
        allocatedAccept := true }
  else
    { status := UcsStatus.ok, registered := none, allocatedAccept := false }

/-- One user-callback invocation `cb(ep, arg)` as the progress bridge
performs it: the called function pointer, the endpoint argument and the
user argument. -/
structure CallEvent where
  cb : Option Nat
  ep : Option Nat
  arg : Option Nat
deriving DecidableEq, Repr

/-- Observable outcome of `ucp_listener_conn_request_progress`: the
user-callback invocations it performed, the accept records still allocated
after its `ucs_free(accept)`, and its return value. -/
structure ProgressOut where
  calls : List CallEvent
  live : List AcceptRec
  ret : Nat
deriving DecidableEq, Repr

/-- `ucp_listener_conn_request_progress(arg)` with `arg = accept`.
`live` is the multiset of currently allocated accept records (containing
`accept`); the body calls
`accept->listener->cb(accept->ep, accept->listener->arg)`, frees `accept`
and returns 0. -/
def ucp_listener_conn_request_progress (live : List AcceptRec)
    (accept : AcceptRec) : ProgressOut :=
  { calls := [{ cb := accept.listener.cb, ep := accept.ep,
                arg := accept.listener.arg }]
  , live := live.erase accept
  , ret := 0 }

/-! ## Helper lemmas on 64-byte alignment -/

lemma align64_ge (b : Nat) : b ≤ (b + 63) / 64 * 64 := by
  have h := Nat.div_add_mod (b + 63) 64
  have hm : (b + 63) % 64 < 64 := Nat.mod_lt _ (by norm_num)
  omega

lemma align64_le (b : Nat) : (b + 63) / 64 * 64 ≤ b + 63 :=
  Nat.div_mul_le_self _ _

lemma align64_dvd (b : Nat) : 64 ∣ (b + 63) / 64 * 64 :=
  Dvd.intro_left _ rfl

lemma align64_min (b y : Nat) (hd : 64 ∣ y) (hby : b ≤ y) :
    (b + 63) / 64 * 64 ≤ y := by
  obtain ⟨k, hk⟩ := hd
  subst hk
  have h1 : b + 63 ≤ 64 * k + 63 := by omega
  have h2 : (b + 63) / 64 ≤ (64 * k + 63) / 64 := Nat.div_le_div_right h1
  have h3 : (64 * k + 63) / 64 = k := by
    rw [Nat.mul_add_div (by norm_num)]
    norm_num
  rw [h3] at h2
  calc (b + 63) / 64 * 64 ≤ k * 64 := Nat.mul_le_mul_right 64 h2
    _ = 64 * k := Nat.mul_comm _ _

lemma ctl_size_aligned_eq : UCT_MM_FIFO_CTL_SIZE_ALIGNED = 64 := by decide

lemma set_fifo_ptrs_eq (base : Nat) :
    uct_mm_set_fifo_ptrs base =
      ((base + 63) / 64 * 64, (base + 63) / 64 * 64 + 64) := by
  simp [uct_mm_set_fifo_ptrs, ucs_align_up_pow2, UCS_SYS_CACHE_LINE_SIZE,
        ctl_size_aligned_eq]

/-! ## Claim theorems: shared-memory FIFO -/

/-- C7: for every raw region base address, `uct_mm_set_fifo_ptrs` sets the
CTL pointer to the smallest cache-line-aligned address at or above the
region base, and sets the elements base pointer to the CTL pointer plus
`UCT_MM_FIFO_CTL_SIZE_ALIGNED`. -/
theorem uct_mm_set_fifo_ptrs_spec (base : Nat) :
    UCS_SYS_CACHE_LINE_SIZE ∣ (uct_mm_set_fifo_ptrs base).1 ∧
    base ≤ (uct_mm_set_fifo_ptrs base).1 ∧
    (∀ y, UCS_SYS_CACHE_LINE_SIZE ∣ y → base ≤ y →
      (uct_mm_set_fifo_ptrs base).1 ≤ y) ∧
    (uct_mm_set_fifo_ptrs base).2 =
      (uct_mm_set_fifo_ptrs base).1 + UCT_MM_FIFO_CTL_SIZE_ALIGNED := by
  rw [set_fifo_ptrs_eq, ctl_size_aligned_eq]
  show 64 ∣ _ ∧ _
  exact ⟨align64_dvd base, align64_ge base,
         fun y hd hby => align64_min base y hd hby, rfl⟩

/-- Witness for C7 at base address 5 (with the minimality clause
instantiated at the aligned address 64). -/
theorem uct_mm_set_fifo_ptrs_spec_witness :
    (uct_mm_set_fifo_ptrs 5).1 = 64 ∧ (uct_mm_set_fifo_ptrs 5).1 ≤ 64 ∧
    (uct_mm_set_fifo_ptrs 5).2 = 128 :=
  ⟨by decide,
   (uct_mm_set_fifo_ptrs_spec 5).2.2.1 64 (by decide) (by decide),
   by decide⟩

/-- C10: for every region base address, the aligned CTL block plus all
`fifo_size` elements of `elem_size` bytes fit within
`UCT_MM_GET_FIFO_SIZE` bytes from the base, the alignment padding
consuming at most `UCS_SYS_CACHE_LINE_SIZE - 1` bytes. -/
theorem uct_mm_fifo_region_fits (base fifo_size elem_size : Nat) :
    (uct_mm_set_fifo_ptrs base).1 - base ≤ UCS_SYS_CACHE_LINE_SIZE - 1 ∧
    (uct_mm_set_fifo_ptrs base).1 + UCT_MM_FIFO_CTL_SIZE_ALIGNED +
        fifo_size * elem_size ≤
      base + UCT_MM_GET_FIFO_SIZE fifo_size elem_size := by
  have hle := align64_le base
  have hge := align64_ge base
  rw [set_fifo_ptrs_eq]
  simp only [UCT_MM_GET_FIFO_SIZE, ctl_size_aligned_eq,
             UCS_SYS_CACHE_LINE_SIZE]
  omega

/-- C1: in `uct_mm_iface_invoke_am`, if the active-message dispatch
returns ok the cached `last_recv_desc` is left unchanged; otherwise a
replacement from the receive-descriptor pool is stored as
`last_recv_desc`, and a NULL pool answer is a fatal
"no receive descriptor" abort rather than an error return. -/
theorem uct_mm_iface_invoke_am_spec (iface : MmIface)
    (dispatchStatus : UcsStatus) (mpoolGet : Option Nat) :
    (dispatchStatus = UcsStatus.ok →
      uct_mm_iface_invoke_am iface dispatchStatus mpoolGet =
        Except.ok { iface := iface, descIfaceSet := false }) ∧
    (dispatchStatus ≠ UcsStatus.ok → ∀ d, mpoolGet = some d →
      uct_mm_iface_invoke_am iface dispatchStatus mpoolGet =
        Except.ok { iface := { iface with last_recv_desc := some d },
                    descIfaceSet := true }) ∧
    (dispatchStatus ≠ UcsStatus.ok → mpoolGet = none →
      uct_mm_iface_invoke_am iface dispatchStatus mpoolGet =
        Except.error "Failed to get a new receive descriptor for MM") := by
  refine ⟨fun h => ?_, fun h d hd => ?_, fun h hn => ?_⟩
  · simp [uct_mm_iface_invoke_am, h]
  · simp [uct_mm_iface_invoke_am, h, hd]
  · simp [uct_mm_iface_invoke_am, h, hn]

/-- Witness for C1: a held dispatch with a live pool replaces the cached
descriptor; a held dispatch with an exhausted pool is fatal. -/
theorem uct_mm_iface_invoke_am_spec_witness :
    uct_mm_iface_invoke_am ⟨some 1, 0⟩ (UcsStatus.err 0) (some 2) =
      Except.ok ⟨⟨some 2, 0⟩, true⟩ ∧
    uct_mm_iface_invoke_am ⟨some 1, 0⟩ (UcsStatus.err 0) none =
      Except.error "Failed to get a new receive descriptor for MM" :=
  ⟨(uct_mm_iface_invoke_am_spec ⟨some 1, 0⟩ (UcsStatus.err 0)
      (some 2)).2.1 (by decide) 2 rfl,
   (uct_mm_iface_invoke_am_spec ⟨some 1, 0⟩ (UcsStatus.err 0)
      none).2.2 (by decide) rfl⟩

/-! ## Helper lemmas on the listener resource loop -/

/-- If no remaining resource passes the accessibility filter, the loop
exhausts and produces the `UCS_ERR_INVALID_ADDR` outcome. -/
lemma ucpListenLoop_all_inaccessible (env : ListenEnv)
    (params : ListenerParams) (mds : List TlMd) :
    ∀ (rscs : List TlResource) (t : Nat),
      (∀ r ∈ rscs, rscAccessible mds params.sockaddrAddr r = false) →
      ucpListenLoop env params mds t rscs =
        { status := UcsStatus.invalidAddr, listener_p := none,
          allocated := 0, freed := 0, exitedCS := true } := by
  intro rscs
  induction rscs with
  | nil => intro t _; rfl
  | cons r rest ih =>
      intro t h
      have hr : rscAccessible mds params.sockaddrAddr r = false :=
        h r (List.mem_cons_self r rest)
      have hrest : ∀ x ∈ rest, rscAccessible mds params.sockaddrAddr x = false :=
        fun x hx => h x (List.mem_cons_of_mem r hx)
      simp only [ucpListenLoop, hr, Bool.false_eq_true, if_false]
      exact ih (t + 1) hrest

/-- Skipping a prefix of inaccessible resources only advances the loop
index. -/
lemma ucpListenLoop_skip (env : ListenEnv) (params : ListenerParams)
    (mds : List TlMd) :
    ∀ (pre rest : List TlResource) (t : Nat),
      (∀ r ∈ pre, rscAccessible mds params.sockaddrAddr r = false) →
      ucpListenLoop env params mds t (pre ++ rest) =
        ucpListenLoop env params mds (t + pre.length) rest := by
  intro pre
  induction pre with
  | nil => intro rest t _; simp
  | cons p ps ih =>
      intro rest t h
      have hp : rscAccessible mds params.sockaddrAddr p = false :=
        h p (List.mem_cons_self p ps)
      have hps : ∀ x ∈ ps, rscAccessible mds params.sockaddrAddr x = false :=
        fun x hx => h x (List.mem_cons_of_mem p hx)
      have step : ucpListenLoop env params mds t ((p :: ps) ++ rest) =
          ucpListenLoop env params mds (t + 1) (ps ++ rest) := by
        simp only [List.cons_append, ucpListenLoop, hp, Bool.false_eq_true,
                   if_false]
        rfl
      rw [step, ih rest (t + 1) hps, List.length_cons]
      congr 1
      omega

/-- If some remaining resource is accessible, the listener allocation
succeeds, and the callback bit is set with a NULL callback pointer, the
loop returns `UCS_ERR_INVALID_PARAM` (via `err_free`). -/
lemma ucpListenLoop_nullcb (env : ListenEnv) (params : ListenerParams)
    (mds : List TlMd) (hm : env.mallocListener = true)
    (hfc : params.fieldCallback = true) (hcb : params.cb = none) :
    ∀ (rscs : List TlResource) (t : Nat),
      (∃ r ∈ rscs, rscAccessible mds params.sockaddrAddr r = true) →
      (ucpListenLoop env params mds t rscs).status =
        UcsStatus.invalidParam := by
  intro rscs
  induction rscs with
  | nil => intro t h; simp at h
  | cons r rest ih =>
      intro t h
      by_cases hr : rscAccessible mds params.sockaddrAddr r = true
      · simp [ucpListenLoop, hr, hm, hfc, hcb]
      · obtain ⟨x, hx, hacc⟩ := h
        rcases List.mem_cons.mp hx with hhead | htail
        · exact absurd (hhead ▸ hacc) hr
        · simp only [ucpListenLoop, hr, if_false]
          exact ih (t + 1) ⟨x, htail, hacc⟩

/-- Invariant of every loop exit: the critical section is exited, every
error exit leaves `*listener_p` unwritten with all allocated records
freed, and the success exit publishes the record without freeing it. -/
lemma ucpListenLoop_invariant (env : ListenEnv) (params : ListenerParams)
    (mds : List TlMd) :
    ∀ (rscs : List TlResource) (t : Nat),
      (ucpListenLoop env params mds t rscs).exitedCS = true ∧
      ((ucpListenLoop env params mds t rscs).status ≠ UcsStatus.ok →
        (ucpListenLoop env params mds t rscs).listener_p = none ∧
        (ucpListenLoop env params mds t rscs).freed =
          (ucpListenLoop env params mds t rscs).allocated) ∧
      ((ucpListenLoop env params mds t rscs).status = UcsStatus.ok →
        (ucpListenLoop env params mds t rscs).freed = 0 ∧
        (ucpListenLoop env params mds t rscs).listener_p ≠ none) := by
  intro rscs
  induction rscs with
  | nil =>
      intro t
      refine ⟨rfl, fun _ => ⟨rfl, rfl⟩, fun h => by simp [ucpListenLoop] at h⟩
  | cons r rest ih =>
      intro t
      by_cases hr : rscAccessible mds params.sockaddrAddr r = true
      · by_cases hm : env.mallocListener = true
        · by_cases hcb : params.fieldCallback = true ∧ params.cb = none
          · simp [ucpListenLoop, hr, hm, hcb]
          · by_cases hst : env.ifaceInitStatus t = UcsStatus.ok
            · simp [ucpListenLoop, hr, hm, hcb, hst]
            · simp [ucpListenLoop, hr, hm, hcb, hst]
        · simp [ucpListenLoop, hr, hm]
      · simp only [ucpListenLoop, hr, if_false]
        exact ih (t + 1)

/-! ## Claim theorems: sockaddr listener -/

/-- C3: with valid sockaddr parameters, if no transport resource both
advertises the sockaddr capability and reports the given sockaddr locally
accessible, `ucp_worker_listen` returns `UCS_ERR_INVALID_ADDR` and does
not write `*listener_p`. -/
theorem ucp_worker_listen_no_accessible_invalid_addr (ctx : UcpContext)
    (env : ListenEnv) (params : ListenerParams)
    (hsa : params.fieldSockAddr = true) (haddr : params.sockaddrAddr ≠ none)
    (hnone : ∀ r ∈ ctx.tl_rscs,
      rscAccessible ctx.tl_mds params.sockaddrAddr r = false) :
    (ucp_worker_listen ctx env params).status = UcsStatus.invalidAddr ∧
    (ucp_worker_listen ctx env params).listener_p = none := by
  have hloop := ucpListenLoop_all_inaccessible env params ctx.tl_mds
    ctx.tl_rscs 0 hnone
  simp [ucp_worker_listen, hsa, haddr, hloop]

/-- Witness for C3: a context whose single resource lacks the sockaddr
capability. -/
theorem ucp_worker_listen_no_accessible_invalid_addr_witness :
    (ucp_worker_listen ⟨[⟨0⟩], [⟨false, fun _ => false⟩]⟩
        ⟨true, fun _ => UcsStatus.ok⟩
        ⟨true, false, some 0, none, 0⟩).status = UcsStatus.invalidAddr ∧
    (ucp_worker_listen ⟨[⟨0⟩], [⟨false, fun _ => false⟩]⟩
        ⟨true, fun _ => UcsStatus.ok⟩
        ⟨true, false, some 0, none, 0⟩).listener_p = none :=
  ucp_worker_listen_no_accessible_invalid_addr
    ⟨[⟨0⟩], [⟨false, fun _ => false⟩]⟩ ⟨true, fun _ => UcsStatus.ok⟩
    ⟨true, false, some 0, none, 0⟩ rfl (by decide) (by decide)

/-- C9: the NULL-callback check sits inside the resource loop: with the
callback bit set and a NULL callback pointer but no accessible resource,
`ucp_worker_listen` returns `UCS_ERR_INVALID_ADDR`, not
`UCS_ERR_INVALID_PARAM`. -/
theorem ucp_worker_listen_nullcb_after_resource (ctx : UcpContext)
    (env : ListenEnv) (params : ListenerParams)
    (hsa : params.fieldSockAddr = true) (haddr : params.sockaddrAddr ≠ none)
    (hfc : params.fieldCallback = true) (hcb : params.cb = none)
    (hnone : ∀ r ∈ ctx.tl_rscs,
      rscAccessible ctx.tl_mds params.sockaddrAddr r = false) :
    (ucp_worker_listen ctx env params).status = UcsStatus.invalidAddr ∧
    (ucp_worker_listen ctx env params).status ≠ UcsStatus.invalidParam := by
  have hloop := ucpListenLoop_all_inaccessible env params ctx.tl_mds
    ctx.tl_rscs 0 hnone
  simp [ucp_worker_listen, hsa, haddr, hloop]

/-- Witness for C9: callback bit set, NULL callback, sole resource not
sockaddr-capable. -/
theorem ucp_worker_listen_nullcb_after_resource_witness :
    (ucp_worker_listen ⟨[⟨0⟩], [⟨false, fun _ => false⟩]⟩
        ⟨true, fun _ => UcsStatus.ok⟩
        ⟨true, true, some 0, none, 0⟩).status = UcsStatus.invalidAddr ∧
    (ucp_worker_listen ⟨[⟨0⟩], [⟨false, fun _ => false⟩]⟩
        ⟨true, fun _ => UcsStatus.ok⟩
        ⟨true, true, some 0, none, 0⟩).status ≠ UcsStatus.invalidParam :=
  ucp_worker_listen_nullcb_after_resource
    ⟨[⟨0⟩], [⟨false, fun _ => false⟩]⟩ ⟨true, fun _ => UcsStatus.ok⟩
    ⟨true, true, some 0, none, 0⟩ rfl (by decide) rfl rfl (by decide)

/-- C2 counterexample: callback bit set with NULL callback pointer, but no
resource is sockaddr-capable — `ucp_worker_listen` returns
`UCS_ERR_INVALID_ADDR`, refuting the unconditional
"callback bit set and NULL callback implies invalid_param" reading. -/
theorem ucp_worker_listen_nullcb_not_invalid_param_cex :
    (⟨true, true, some 0, none, 0⟩ : ListenerParams).fieldCallback = true ∧
    (⟨true, true, some 0, none, 0⟩ : ListenerParams).cb = none ∧
    (ucp_worker_listen ⟨[⟨0⟩], [⟨false, fun _ => false⟩]⟩
        ⟨true, fun _ => UcsStatus.ok⟩
        ⟨true, true, some 0, none, 0⟩).status ≠ UcsStatus.invalidParam := by
  refine ⟨rfl, rfl, ?_⟩
  decide

/-- C2 (amended): `ucp_worker_listen` returns `UCS_ERR_INVALID_PARAM`
whenever the sockaddr field bit is absent or the sockaddr address pointer
is NULL; with the callback bit set and a NULL callback pointer it returns
`UCS_ERR_INVALID_PARAM` provided some resource is sockaddr-capable and
accessible and the listener allocation succeeds. -/
theorem ucp_worker_listen_param_validation (ctx : UcpContext)
    (env : ListenEnv) (params : ListenerParams) :
    (params.fieldSockAddr = false →
      (ucp_worker_listen ctx env params).status = UcsStatus.invalidParam) ∧
    (params.sockaddrAddr = none →
      (ucp_worker_listen ctx env params).status = UcsStatus.invalidParam) ∧
    (params.fieldCallback = true → params.cb = none →
      env.mallocListener = true →
      (∃ r ∈ ctx.tl_rscs,
        rscAccessible ctx.tl_mds params.sockaddrAddr r = true) →
      (ucp_worker_listen ctx env params).status =
        UcsStatus.invalidParam) := by
  refine ⟨fun h => ?_, fun h => ?_, fun hfc hcb hm hex => ?_⟩
  · simp [ucp_worker_listen, h]
  · cases hsa : params.fieldSockAddr
    · simp [ucp_worker_listen, hsa]
    · simp [ucp_worker_listen, hsa, h]
  · have hloop := ucpListenLoop_nullcb env params ctx.tl_mds hm hfc hcb
      ctx.tl_rscs 0 hex
    cases hsa : params.fieldSockAddr
    · simp [ucp_worker_listen, hsa]
    · cases haddr : params.sockaddrAddr
      · simp [ucp_worker_listen, hsa, haddr]
      · simp [ucp_worker_listen, hsa, haddr] at hloop ⊢
        exact hloop

/-- Witness for C2 (amended): missing sockaddr bit yields invalid_param,
and NULL callback with an accessible resource yields invalid_param. -/
theorem ucp_worker_listen_param_validation_witness :
    (ucp_worker_listen ⟨[⟨0⟩], [⟨true, fun _ => true⟩]⟩
        ⟨true, fun _ => UcsStatus.ok⟩
        ⟨false, false, some 0, none, 0⟩).status = UcsStatus.invalidParam ∧
    (ucp_worker_listen ⟨[⟨0⟩], [⟨true, fun _ => true⟩]⟩
        ⟨true, fun _ => UcsStatus.ok⟩
        ⟨true, true, some 0, none, 0⟩).status = UcsStatus.invalidParam :=
  ⟨(ucp_worker_listen_param_validation ⟨[⟨0⟩], [⟨true, fun _ => true⟩]⟩
      ⟨true, fun _ => UcsStatus.ok⟩ ⟨false, false, some 0, none, 0⟩).1 rfl,
   (ucp_worker_listen_param_validation ⟨[⟨0⟩], [⟨true, fun _ => true⟩]⟩
      ⟨true, fun _ => UcsStatus.ok⟩
      ⟨true, true, some 0, none, 0⟩).2.2 rfl rfl rfl (by decide)⟩

/-- C4: `ucp_worker_listen` stops at the first resource (in registration
order) passing the capability and accessibility filter; if
`ucp_worker_iface_init` fails there, the allocated listener record is
freed and that failure status is returned — later resources are not
tried. -/
theorem ucp_worker_listen_first_accessible_failure_terminal
    (ctx : UcpContext) (env : ListenEnv) (params : ListenerParams)
    (pre post : List TlResource) (r : TlResource) (st : UcsStatus)
    (hrsc : ctx.tl_rscs = pre ++ r :: post)
    (hpre : ∀ p ∈ pre, rscAccessible ctx.tl_mds params.sockaddrAddr p = false)
    (hr : rscAccessible ctx.tl_mds params.sockaddrAddr r = true)
    (hsa : params.fieldSockAddr = true) (haddr : params.sockaddrAddr ≠ none)
    (hm : env.mallocListener = true)
    (hcb : ¬(params.fieldCallback = true ∧ params.cb = none))
    (hst : env.ifaceInitStatus pre.length = st) (hne : st ≠ UcsStatus.ok) :
    ucp_worker_listen ctx env params =
      { status := st, listener_p := none, allocated := 1, freed := 1,
        exitedCS := true } := by
  have hinit : env.ifaceInitStatus (0 + pre.length) = st := by
    rw [Nat.zero_add]; exact hst
  have hskip := ucpListenLoop_skip env params ctx.tl_mds pre (r :: post) 0 hpre
  simp only [ucp_worker_listen, hsa, Bool.not_true, Bool.false_eq_true,
             if_false, hrsc]
  rw [if_neg haddr, hskip]
  simp [ucpListenLoop, hr, hm, hcb, hinit, hst, hne]

/-- Witness for C4: two resources; the first is accessible but its
interface fails to open with `err 7`, while the second would succeed —
the call still surfaces `err 7`. -/
theorem ucp_worker_listen_first_accessible_failure_terminal_witness :
    ucp_worker_listen
        ⟨[⟨1⟩, ⟨0⟩], [⟨true, fun _ => true⟩, ⟨true, fun _ => true⟩]⟩
        ⟨true, fun t => if t = 0 then UcsStatus.err 7 else UcsStatus.ok⟩
        ⟨true, true, some 0, some 3, 4⟩ =
      { status := UcsStatus.err 7, listener_p := none, allocated := 1,
        freed := 1, exitedCS := true } :=
  ucp_worker_listen_first_accessible_failure_terminal
    ⟨[⟨1⟩, ⟨0⟩], [⟨true, fun _ => true⟩, ⟨true, fun _ => true⟩]⟩
    ⟨true, fun t => if t = 0 then UcsStatus.err 7 else UcsStatus.ok⟩
    ⟨true, true, some 0, some 3, 4⟩ [] [⟨0⟩] ⟨1⟩ (UcsStatus.err 7)
    rfl (by decide) (by decide) rfl (by decide) rfl (by decide) rfl
    (by decide)

/-- C8: on every return of `ucp_worker_listen` the worker critical
section and async block are exited; on every error return no listener is
published through `*listener_p` and every allocated listener record has
been freed. -/
theorem ucp_worker_listen_no_partial_state (ctx : UcpContext)
    (env : ListenEnv) (params : ListenerParams) :
    (ucp_worker_listen ctx env params).exitedCS = true ∧
    ((ucp_worker_listen ctx env params).status ≠ UcsStatus.ok →
      (ucp_worker_listen ctx env params).listener_p = none ∧
      (ucp_worker_listen ctx env params).freed =
        (ucp_worker_listen ctx env params).allocated) := by
  cases hsa : params.fieldSockAddr
  · simp [ucp_worker_listen, hsa]
  · cases haddr : params.sockaddrAddr with
    | none => simp [ucp_worker_listen, hsa, haddr]
    | some a =>
        have hinv := ucpListenLoop_invariant env params ctx.tl_mds
          ctx.tl_rscs 0
        simp only [ucp_worker_listen, hsa, Bool.not_true, Bool.false_eq_true,
                   if_false, haddr, reduceCtorEq, if_neg]
        exact ⟨hinv.1, fun h => hinv.2.1 h⟩

/-- Witness for C8: the NULL-callback error path frees the record it
allocated and publishes nothing. -/
theorem ucp_worker_listen_no_partial_state_witness :
    (ucp_worker_listen ⟨[⟨0⟩], [⟨true, fun _ => true⟩]⟩
        ⟨true, fun _ => UcsStatus.ok⟩
        ⟨true, true, some 0, none, 0⟩).exitedCS = true ∧
    (ucp_worker_listen ⟨[⟨0⟩], [⟨true, fun _ => true⟩]⟩
        ⟨true, fun _ => UcsStatus.ok⟩
        ⟨true, true, some 0, none, 0⟩).listener_p = none ∧
    (ucp_worker_listen ⟨[⟨0⟩], [⟨true, fun _ => true⟩]⟩
        ⟨true, fun _ => UcsStatus.ok⟩
        ⟨true, true, some 0, none, 0⟩).freed =
      (ucp_worker_listen ⟨[⟨0⟩], [⟨true, fun _ => true⟩]⟩
        ⟨true, fun _ => UcsStatus.ok⟩
        ⟨true, true, some 0, none, 0⟩).allocated :=
  ⟨(ucp_worker_listen_no_partial_state ⟨[⟨0⟩], [⟨true, fun _ => true⟩]⟩
      ⟨true, fun _ => UcsStatus.ok⟩ ⟨true, true, some 0, none, 0⟩).1,
   ((ucp_worker_listen_no_partial_state ⟨[⟨0⟩], [⟨true, fun _ => true⟩]⟩
      ⟨true, fun _ => UcsStatus.ok⟩
      ⟨true, true, some 0, none, 0⟩).2 (by decide)).1,
   ((ucp_worker_listen_no_partial_state ⟨[⟨0⟩], [⟨true, fun _ => true⟩]⟩
      ⟨true, fun _ => UcsStatus.ok⟩
      ⟨true, true, some 0, none, 0⟩).2 (by decide)).2⟩

/-- C6: `ucp_listener_conn_request_callback` returns ok immediately with
no allocation or registration when the listener has no user callback;
otherwise it returns no_memory exactly when the accept-record allocation
fails, and on success registers a one-shot progress item carrying the
record with `ep = NULL` and returns ok. -/
theorem ucp_listener_conn_request_callback_spec (listener : ListenerRec)
    (mallocAccept : Bool) :
    (listener.cb = none →
      ucp_listener_conn_request_callback listener mallocAccept =
        { status := UcsStatus.ok, registered := none,
          allocatedAccept := false }) ∧
    (listener.cb ≠ none →
      ((ucp_listener_conn_request_callback listener mallocAccept).status =
          UcsStatus.noMemory ↔ mallocAccept = false) ∧
      (mallocAccept = true →
        ucp_listener_conn_request_callback listener mallocAccept =
          { status := UcsStatus.ok,
            registered := some ({ listener := listener, ep := none }, true),
            allocatedAccept := true })) := by
  refine ⟨fun h => ?_, fun h => ⟨?_, fun hm => ?_⟩⟩
  · simp [ucp_listener_conn_request_callback, h]
  · cases mallocAccept
    · simp [ucp_listener_conn_request_callback, h]
    · simp [ucp_listener_conn_request_callback, h]
  · simp [ucp_listener_conn_request_callback, h, hm]

/-- Witness for C6: a listener with a callback and a successful
allocation registers the one-shot item; with allocation failure the call
reports no_memory. -/
theorem ucp_listener_conn_request_callback_spec_witness :
    ucp_listener_conn_request_callback ⟨some 5, some 7, 0⟩ true =
      { status := UcsStatus.ok,
        registered := some ({ listener := ⟨some 5, some 7, 0⟩, ep := none },
                            true),
        allocatedAccept := true } ∧
    (ucp_listener_conn_request_callback ⟨some 5, some 7, 0⟩ false).status =
      UcsStatus.noMemory ∧
    ucp_listener_conn_request_callback ⟨none, none, 0⟩ true =
      { status := UcsStatus.ok, registered := none,
        allocatedAccept := false } :=
  ⟨((ucp_listener_conn_request_callback_spec ⟨some 5, some 7, 0⟩ true).2
      (by decide)).2 rfl,
   ((ucp_listener_conn_request_callback_spec ⟨some 5, some 7, 0⟩ false).2
      (by decide)).1.mpr rfl,
   (ucp_listener_conn_request_callback_spec ⟨none, none, 0⟩ true).1 rfl⟩

/-- C5: when the worker progress loop runs a registered deferred-dispatch
item, `ucp_listener_conn_request_progress` invokes the listener user
callback exactly once as `listener.cb(record.ep, listener.arg)`, frees
the accept record, and returns 0. -/
theorem ucp_listener_conn_request_progress_spec (live : List AcceptRec)
    (accept : AcceptRec) (hmem : accept ∈ live) :
    (ucp_listener_conn_request_progress live accept).calls =
      [{ cb := accept.listener.cb, ep := accept.ep,
         arg := accept.listener.arg }] ∧
    (ucp_listener_conn_request_progress live accept).live.count accept + 1 =
      live.count accept ∧
    (ucp_listener_conn_request_progress live accept).ret = 0 := by
  refine ⟨rfl, ?_, rfl⟩
  have hpos : 0 < live.count accept := List.count_pos_iff.mpr hmem
  have herase := List.count_erase_self accept live
  simp only [ucp_listener_conn_request_progress]
  omega

/-- Witness for C5 on a single live accept record. -/
theorem ucp_listener_conn_request_progress_spec_witness :
    (ucp_listener_conn_request_progress [⟨⟨some 1, some 2, 0⟩, none⟩]
        ⟨⟨some 1, some 2, 0⟩, none⟩).calls =
      [{ cb := some 1, ep := none, arg := some 2 }] ∧
    (ucp_listener_conn_request_progress [⟨⟨some 1, some 2, 0⟩, none⟩]
        ⟨⟨some 1, some 2, 0⟩, none⟩).live.count
        ⟨⟨some 1, some 2, 0⟩, none⟩ + 1 =
      List.count (⟨⟨some 1, some 2, 0⟩, none⟩ : AcceptRec)
        [⟨⟨some 1, some 2, 0⟩, none⟩] ∧
    (ucp_listener_conn_request_progress [⟨⟨some 1, some 2, 0⟩, none⟩]
        ⟨⟨some 1, some 2, 0⟩, none⟩).ret = 0 :=
  ucp_listener_conn_request_progress_spec [⟨⟨some 1, some 2, 0⟩, none⟩]
    ⟨⟨some 1, some 2, 0⟩, none⟩ (by decide)
